import Mathlib

/-!
Shallow embedding of the Google Cloud plugin's telemetry configuration
resolution (`TelemetryConfigs` in `js/plugins/google-cloud/src/index.ts`)
and of the logger construction in `GcpLogger.getLogger`
(`js/plugins/google-cloud/src/gcpLogger.ts`).

JavaScript objects whose properties may be absent are modelled as records
of `Option` fields; the object-spread merge `{ ...defaults, ...overrides }`
is modelled field-wise: a property present in `overrides` wins, an absent
one falls through to `defaults`.  External SDK values (samplers,
instrumentation objects, JWT credentials) are opaque and modelled by small
inductive types carrying enough structure to distinguish values.
-/

/-- OpenTelemetry trace sampler.  `alwaysOn` is `new AlwaysOnSampler()`;
`custom` stands for any other sampler object a caller may supply. -/
inductive Sampler where
  | alwaysOn : Sampler
  | custom : Nat → Sampler
deriving DecidableEq, Repr

/-- Per-instrumentation configuration object, e.g. `\x7b enabled: false \x7d`. -/
structure InstrConfig where
  enabled : Option Bool
deriving DecidableEq, Repr

/-- `InstrumentationConfigMap`: mapping from instrumentation name to its
configuration object. -/
abbrev InstrumentationConfigMap := List (String × InstrConfig)

/-- Opaque OpenTelemetry `Instrumentation` object. -/
structure Instrumentation where
  id : Nat
deriving DecidableEq, Repr

/-- Opaque `JWTInput` credential material. -/
abbrev JWTInput := Nat

/-- A runtime telemetry-configuration object: every property may be absent
(JavaScript `undefined`), mirroring what an object literal or a spread
result actually holds at runtime.  `forceDevExport` and `extra` model
override-only properties that the spread `{ ...defaults, ...overrides }`
also copies into the result (`extra` stands for arbitrary unrecognized
keys, as name/value pairs). -/
structure TelemetryObj where
  sampler : Option Sampler
  autoInstrumentation : Option Bool
  autoInstrumentationConfig : Option InstrumentationConfigMap
  instrumentations : Option (List Instrumentation)
  metricExportIntervalMillis : Option Int
  metricExportTimeoutMillis : Option Int
  disableMetrics : Option Bool
  disableTraces : Option Bool
  «export» : Option Bool
  forceDevExport : Option Bool
  extra : List (String × Nat)
deriving DecidableEq, Repr

/-- `GcpTelemetryConfigOptions` (the caller-supplied override record):
every declared field is optional, and there is no `export` field — the
export gate cannot be overridden directly.  `extra` models unrecognized
properties a (structurally typed) caller may attach. -/
structure GcpTelemetryConfigOptions where
  sampler : Option Sampler
  autoInstrumentation : Option Bool
  autoInstrumentationConfig : Option InstrumentationConfigMap
  instrumentations : Option (List Instrumentation)
  metricExportIntervalMillis : Option Int
  metricExportTimeoutMillis : Option Int
  disableMetrics : Option Bool
  disableTraces : Option Bool
  forceDevExport : Option Bool
  extra : List (String × Nat)
deriving DecidableEq, Repr

/-- The empty override record `\x7b\x7d`. -/
def emptyOptions : GcpTelemetryConfigOptions :=
  ⟨none, none, none, none, none, none, none, none, none, []⟩

/-- View an override record as a runtime object (it carries no `export`
property). -/
def GcpTelemetryConfigOptions.toObj (o : GcpTelemetryConfigOptions) : TelemetryObj where
  sampler := o.sampler
  autoInstrumentation := o.autoInstrumentation
  autoInstrumentationConfig := o.autoInstrumentationConfig
  instrumentations := o.instrumentations
  metricExportIntervalMillis := o.metricExportIntervalMillis
  metricExportTimeoutMillis := o.metricExportTimeoutMillis
  disableMetrics := o.disableMetrics
  disableTraces := o.disableTraces
  «export» := none
  forceDevExport := o.forceDevExport
  extra := o.extra

/-- One property of a JavaScript spread `{ ...d, ...o }`: the override's
value if the property is present, otherwise the default's. -/
def jsOver {α : Type} (d ov : Option α) : Option α :=
  match ov with
  | some v => some v
  | none => d

/-- Spread semantics on the unrecognized-key bag: keys of `d` keep their
position (value taken from `o` when `o` also has the key), then keys only
in `o` follow in order. -/
def spreadExtra (d o : List (String × Nat)) : List (String × Nat) :=
  d.map (fun p =>
    match o.find? (fun q => q.1 == p.1) with
    | some q => q
    | none => p) ++
  o.filter (fun q => !(d.any (fun p => p.1 == q.1)))

/-- Field-wise model of `{ ...d, ...o }` on telemetry objects. -/
def TelemetryObj.spread (d o : TelemetryObj) : TelemetryObj where
  sampler := jsOver d.sampler o.sampler
  autoInstrumentation := jsOver d.autoInstrumentation o.autoInstrumentation
  autoInstrumentationConfig := jsOver d.autoInstrumentationConfig o.autoInstrumentationConfig
  instrumentations := jsOver d.instrumentations o.instrumentations
  metricExportIntervalMillis := jsOver d.metricExportIntervalMillis o.metricExportIntervalMillis
  metricExportTimeoutMillis := jsOver d.metricExportTimeoutMillis o.metricExportTimeoutMillis
  disableMetrics := jsOver d.disableMetrics o.disableMetrics
  disableTraces := jsOver d.disableTraces o.disableTraces
  «export» := jsOver d.«export» o.«export»
  forceDevExport := jsOver d.forceDevExport o.forceDevExport
  extra := spreadExtra d.extra o.extra

/-- The instrumentation name whose entry the default mapping disables. -/
def dnsInstrumentationKey : String := "@opentelemetry/instrumentation-dns"

/-- The `const defaults` literal of `TelemetryConfigs.developmentDefaults`:
its `export` property is `!!overrides.forceDevExport`. -/
def TelemetryConfigs.developmentBase (overrides : GcpTelemetryConfigOptions) : TelemetryObj where
  sampler := some Sampler.alwaysOn
  autoInstrumentation := some true
  autoInstrumentationConfig := some [(dnsInstrumentationKey, ⟨some false⟩)]
  instrumentations := some []
  metricExportIntervalMillis := some 5000
  metricExportTimeoutMillis := some 5000
  disableMetrics := some false
  disableTraces := some false
  «export» := some (overrides.forceDevExport.getD false)
  forceDevExport := none
  extra := []

/-- `TelemetryConfigs.developmentDefaults overrides`:
`return { ...defaults, ...overrides }`. -/
def TelemetryConfigs.developmentDefaults (overrides : GcpTelemetryConfigOptions) : TelemetryObj :=
  TelemetryObj.spread (TelemetryConfigs.developmentBase overrides) overrides.toObj

/-- The `const defaults` literal of `TelemetryConfigs.productionDefaults`:
a fixed record, `export: true`. -/
def TelemetryConfigs.productionBase : TelemetryObj where
  sampler := some Sampler.alwaysOn
  autoInstrumentation := some true
  autoInstrumentationConfig := some [(dnsInstrumentationKey, ⟨some false⟩)]
  instrumentations := some []
  metricExportIntervalMillis := some 300000
  metricExportTimeoutMillis := some 300000
  disableMetrics := some false
  disableTraces := some false
  «export» := some true
  forceDevExport := none
  extra := []

/-- `TelemetryConfigs.productionDefaults overrides`:
`return { ...defaults, ...overrides }`. -/
def TelemetryConfigs.productionDefaults (overrides : GcpTelemetryConfigOptions) : TelemetryObj :=
  TelemetryObj.spread TelemetryConfigs.productionBase overrides.toObj

/-- The Genkit runtime environment reported by the host framework. -/
inductive GenkitEnv where
  | development : GenkitEnv
  | production : GenkitEnv
deriving DecidableEq, Repr

/-- `isDevEnv()` from the host framework, as a function of the environment. -/
def isDevEnv : GenkitEnv → Bool
  | GenkitEnv.development => true
  | GenkitEnv.production => false

/-- `TelemetryConfigs.defaults`: dispatch on `isDevEnv()`. -/
def TelemetryConfigs.defaults (env : GenkitEnv) (overrides : GcpTelemetryConfigOptions) : TelemetryObj :=
  if isDevEnv env then TelemetryConfigs.developmentDefaults overrides
  else TelemetryConfigs.productionDefaults overrides

/-- The spec's `resolve(environment, overrides)` is `TelemetryConfigs.defaults`
with the environment signal made explicit. -/
def resolve (env : GenkitEnv) (overrides : GcpTelemetryConfigOptions) : TelemetryObj :=
  TelemetryConfigs.defaults env overrides

/-- The base default record an environment selects (the `const defaults`
literal of the branch `resolve` takes). -/
def baseDefaults (env : GenkitEnv) (overrides : GcpTelemetryConfigOptions) : TelemetryObj :=
  if isDevEnv env then TelemetryConfigs.developmentBase overrides
  else TelemetryConfigs.productionBase

/-- The fields of the resolved `GcpTelemetryConfig` record
(`js/plugins/google-cloud/src/types.ts`). -/
inductive TField where
  | sampler : TField
  | autoInstrumentation : TField
  | autoInstrumentationConfig : TField
  | instrumentations : TField
  | metricExportIntervalMillis : TField
  | metricExportTimeoutMillis : TField
  | disableMetrics : TField
  | disableTraces : TField
  | «export» : TField
deriving DecidableEq, Repr

/-- The value a telemetry-configuration field can hold, as one sum type so
fields can be quantified over uniformly. -/
inductive FieldVal where
  | vSampler : Sampler → FieldVal
  | vBool : Bool → FieldVal
  | vMap : InstrumentationConfigMap → FieldVal
  | vInstrs : List Instrumentation → FieldVal
  | vInt : Int → FieldVal
deriving DecidableEq, Repr

/-- Look a `GcpTelemetryConfig` field up in a runtime object. -/
def TelemetryObj.getField (c : TelemetryObj) : TField → Option FieldVal
  | TField.sampler => c.sampler.map FieldVal.vSampler
  | TField.autoInstrumentation => c.autoInstrumentation.map FieldVal.vBool
  | TField.autoInstrumentationConfig => c.autoInstrumentationConfig.map FieldVal.vMap
  | TField.instrumentations => c.instrumentations.map FieldVal.vInstrs
  | TField.metricExportIntervalMillis => c.metricExportIntervalMillis.map FieldVal.vInt
  | TField.metricExportTimeoutMillis => c.metricExportTimeoutMillis.map FieldVal.vInt
  | TField.disableMetrics => c.disableMetrics.map FieldVal.vBool
  | TField.disableTraces => c.disableTraces.map FieldVal.vBool
  | TField.export => c.«export».map FieldVal.vBool

/-- Look a `GcpTelemetryConfig` field up in an override record; the
`export` field is never present there (the options interface has no such
field). -/
def GcpTelemetryConfigOptions.getField (o : GcpTelemetryConfigOptions) : TField → Option FieldVal
  | TField.sampler => o.sampler.map FieldVal.vSampler
  | TField.autoInstrumentation => o.autoInstrumentation.map FieldVal.vBool
  | TField.autoInstrumentationConfig => o.autoInstrumentationConfig.map FieldVal.vMap
  | TField.instrumentations => o.instrumentations.map FieldVal.vInstrs
  | TField.metricExportIntervalMillis => o.metricExportIntervalMillis.map FieldVal.vInt
  | TField.metricExportTimeoutMillis => o.metricExportTimeoutMillis.map FieldVal.vInt
  | TField.disableMetrics => o.disableMetrics.map FieldVal.vBool
  | TField.disableTraces => o.disableTraces.map FieldVal.vBool
  | TField.export => none

/-- `GcpPluginConfig` as consumed by `GcpLogger`. -/
structure GcpPluginConfig where
  projectId : Option String
  telemetryConfig : TelemetryObj
  credentials : Option JWTInput
deriving DecidableEq, Repr

/-- The winston log format `GcpLogger.getLogger` selects:
`winston.format.json()` or the plain `winston.format.printf(...)`. -/
inductive LogFormat where
  | json : LogFormat
  | printfPlain : LogFormat
deriving DecidableEq, Repr

/-- A winston transport `GcpLogger.getLogger` constructs: the remote
`new LoggingWinston(...)` (with the project id and credentials it is
given), the local `new winston.transports.Console()`, or the
testing-only stream transport. -/
inductive LogTransport where
  | loggingWinston : Option String → Option JWTInput → LogTransport
  | console : LogTransport
  | stream : Nat → LogTransport
deriving DecidableEq, Repr

/-- The logger `winston.createLogger` is called with: a format and a
transport list. -/
structure WinstonLogger where
  format : LogFormat
  transports : List LogTransport
deriving DecidableEq, Repr

/-- `GcpLogger.getLogger`: format and first transport are both selected on
the truthiness of `this.config.telemetryConfig.export`; the module-level
`additionalStream`, when set, contributes one extra stream transport. -/
def GcpLogger.getLogger (config : GcpPluginConfig) (additionalStream : Option Nat) : WinstonLogger where
  format :=
    if config.telemetryConfig.«export».getD false then LogFormat.json
    else LogFormat.printfPlain
  transports :=
    [if config.telemetryConfig.«export».getD false then
        LogTransport.loggingWinston config.projectId config.credentials
      else LogTransport.console] ++
    (match additionalStream with
     | some s => [LogTransport.stream s]
     | none => [])

/-- Override record supplying a caller sampler, used as a concrete input. -/
def samplerOpts : GcpTelemetryConfigOptions :=
  { emptyOptions with sampler := some (Sampler.custom 7) }

/-- Override record forcing development export, used as a concrete input. -/
def forceOpts : GcpTelemetryConfigOptions :=
  { emptyOptions with forceDevExport := some true }

/-- Override record with a negative metric export interval and an
unrecognized property, used as a concrete input. -/
def negOpts : GcpTelemetryConfigOptions :=
  { emptyOptions with
      metricExportIntervalMillis := some (-1)
      extra := [("bogusKey", 42)] }

/-- Override record replacing the auto-instrumentation mapping wholesale,
used as a concrete input. -/
def mapOpts : GcpTelemetryConfigOptions :=
  { emptyOptions with
      autoInstrumentationConfig := some [("@opentelemetry/instrumentation-http", ⟨some true⟩)] }

/-- A plugin config whose resolved telemetry config exports (production),
used as a concrete input. -/
def exportingPluginConfig : GcpPluginConfig :=
  { projectId := some "demo-project"
    telemetryConfig := resolve GenkitEnv.production emptyOptions
    credentials := some 11 }

theorem jsOver_some {α : Type} (d : Option α) (v : α) : jsOver d (some v) = some v := rfl

theorem jsOver_none {α : Type} (d : Option α) : jsOver d none = d := rfl

theorem jsOver_map {α β : Type} (g : α → β) (d ov : Option α) :
    (jsOver d ov).map g = jsOver (d.map g) (ov.map g) := by
  cases ov <;> rfl

theorem jsOver_isSome {α : Type} {d : Option α} (ov : Option α) (h : d.isSome) :
    (jsOver d ov).isSome := by
  cases ov
  · exact h
  · rfl

theorem spreadExtra_nil (o : List (String × Nat)) : spreadExtra [] o = o := by
  simp [spreadExtra]

/-- Resolution computes, field by field, the JavaScript spread of the
selected base default record and the override record. -/
theorem resolve_getField (e : GenkitEnv) (o : GcpTelemetryConfigOptions) (f : TField) :
    (resolve e o).getField f = jsOver ((baseDefaults e o).getField f) (o.getField f) := by
  cases e <;> cases f <;>
    simp [resolve, TelemetryConfigs.defaults, isDevEnv, baseDefaults,
      TelemetryConfigs.developmentDefaults, TelemetryConfigs.productionDefaults,
      TelemetryConfigs.developmentBase, TelemetryConfigs.productionBase,
      TelemetryObj.spread, GcpTelemetryConfigOptions.toObj,
      TelemetryObj.getField, GcpTelemetryConfigOptions.getField, jsOver_map]

/-- Claim C1: field-wise override layering — for every environment, every
override record and every `GcpTelemetryConfig` field, a field present in
the overrides wins in the resolved record, and an absent field takes the
value of the environment's base default record (which, for the `export`
field in development, is itself computed from the override's
`forceDevExport` flag). -/
theorem claim_C1 (e : GenkitEnv) (o : GcpTelemetryConfigOptions) (f : TField) :
    (∀ v, o.getField f = some v → (resolve e o).getField f = some v) ∧
    (o.getField f = none → (resolve e o).getField f = (baseDefaults e o).getField f) := by
  constructor
  · intro v h
    rw [resolve_getField, h, jsOver_some]
  · intro h
    rw [resolve_getField, h, jsOver_none]

/-- Concrete instance of claim C1: an overridden sampler wins, and an
absent field falls back to the base default. -/
theorem claim_C1_witness :
    (resolve GenkitEnv.development samplerOpts).getField TField.sampler
      = some (FieldVal.vSampler (Sampler.custom 7))
  ∧ (resolve GenkitEnv.development samplerOpts).getField TField.autoInstrumentation
      = (baseDefaults GenkitEnv.development samplerOpts).getField TField.autoInstrumentation :=
  ⟨(claim_C1 GenkitEnv.development samplerOpts TField.sampler).1 _ rfl,
   (claim_C1 GenkitEnv.development samplerOpts TField.autoInstrumentation).2 rfl⟩

/-- Claim C2: export gate defaults — in development the resolved `export`
field is `true` exactly when the override sets `forceDevExport` to `true`
(so the empty override resolves to `false`), while production always
resolves `export` to `true`. -/
theorem claim_C2 :
    (∀ o : GcpTelemetryConfigOptions,
        (resolve GenkitEnv.development o).«export» = some true ↔
          o.forceDevExport = some true)
  ∧ (resolve GenkitEnv.development emptyOptions).«export» = some false
  ∧ (∀ o : GcpTelemetryConfigOptions,
        (resolve GenkitEnv.production o).«export» = some true) := by
  refine ⟨fun o => ?_, rfl, fun o => rfl⟩
  cases h : o.forceDevExport with
  | none =>
      simp [resolve, TelemetryConfigs.defaults, isDevEnv,
        TelemetryConfigs.developmentDefaults, TelemetryConfigs.developmentBase,
        TelemetryObj.spread, GcpTelemetryConfigOptions.toObj, jsOver, h]
  | some b =>
      cases b <;>
        simp [resolve, TelemetryConfigs.defaults, isDevEnv,
          TelemetryConfigs.developmentDefaults, TelemetryConfigs.developmentBase,
          TelemetryObj.spread, GcpTelemetryConfigOptions.toObj, jsOver, h]

/-- Concrete instance of claim C2: forcing development export turns the
export gate on. -/
theorem claim_C2_witness :
    (resolve GenkitEnv.development forceOpts).«export» = some true :=
  (claim_C2.1 forceOpts).mpr rfl

/-- Claim C3: completeness — every `GcpTelemetryConfig` field of the
resolved record is defined, for every environment and override record. -/
theorem claim_C3 (e : GenkitEnv) (o : GcpTelemetryConfigOptions) (f : TField) :
    ((resolve e o).getField f).isSome := by
  rw [resolve_getField]
  exact jsOver_isSome _ (by cases e <;> cases f <;> rfl)

/-- Claim C4: metric export cadence defaults — 300000 ms in production,
5000 ms in development, both positive. -/
theorem claim_C4 :
    (resolve GenkitEnv.production emptyOptions).metricExportIntervalMillis = some 300000
  ∧ (resolve GenkitEnv.development emptyOptions).metricExportIntervalMillis = some 5000
  ∧ (0 : Int) < 300000 ∧ (0 : Int) < 5000 :=
  ⟨rfl, rfl, by decide, by decide⟩

/-- Claim C5: resolution is total and performs no validation — it always
returns a record, passes any metric export interval (negative included)
through unchanged, and merges unrecognized override properties into the
result untouched. -/
theorem claim_C5 (e : GenkitEnv) (o : GcpTelemetryConfigOptions) :
    (∃ c : TelemetryObj, resolve e o = c)
  ∧ (∀ n : Int, o.metricExportIntervalMillis = some n →
      (resolve e o).metricExportIntervalMillis = some n)
  ∧ (resolve e o).extra = o.extra := by
  refine ⟨⟨resolve e o, rfl⟩, fun n h => ?_, ?_⟩
  · cases e <;>
      simp [resolve, TelemetryConfigs.defaults, isDevEnv,
        TelemetryConfigs.developmentDefaults, TelemetryConfigs.productionDefaults,
        TelemetryConfigs.developmentBase, TelemetryConfigs.productionBase,
        TelemetryObj.spread, GcpTelemetryConfigOptions.toObj, jsOver, h]
  · cases e <;>
      simp [resolve, TelemetryConfigs.defaults, isDevEnv,
        TelemetryConfigs.developmentDefaults, TelemetryConfigs.productionDefaults,
        TelemetryConfigs.developmentBase, TelemetryConfigs.productionBase,
        TelemetryObj.spread, GcpTelemetryConfigOptions.toObj, spreadExtra_nil]

/-- Concrete instance of claim C5: a negative interval and a bogus extra
property both survive resolution unvalidated. -/
theorem claim_C5_witness :
    (resolve GenkitEnv.production negOpts).metricExportIntervalMillis = some (-1)
  ∧ (resolve GenkitEnv.production negOpts).extra = [("bogusKey", 42)] :=
  ⟨(claim_C5 GenkitEnv.production negOpts).2.1 (-1) rfl,
   (claim_C5 GenkitEnv.production negOpts).2.2⟩

/-- Claim C6: purity — resolution depends only on its two arguments: two
calls with identical environment and identical override records return
structurally equal results. -/
theorem claim_C6 (ea eb : GenkitEnv) (oa ob : GcpTelemetryConfigOptions)
    (he : ea = eb) (ho : oa = ob) : resolve ea oa = resolve eb ob := by
  rw [he, ho]

/-- Concrete instance of claim C6: two identical calls agree. -/
theorem claim_C6_witness :
    resolve GenkitEnv.development emptyOptions = resolve GenkitEnv.development emptyOptions :=
  claim_C6 GenkitEnv.development GenkitEnv.development emptyOptions emptyOptions rfl rfl

/-- Claim C7: shallow merge — an override's auto-instrumentation mapping
replaces the default mapping wholesale; in particular the default's
DNS-disabling entry is not retained when the override mapping lacks it. -/
theorem claim_C7 (e : GenkitEnv) (o : GcpTelemetryConfigOptions)
    (m : InstrumentationConfigMap) (h : o.autoInstrumentationConfig = some m) :
    (resolve e o).autoInstrumentationConfig = some m
  ∧ (dnsInstrumentationKey ∉ m.map Prod.fst →
      dnsInstrumentationKey ∉
        (((resolve e o).autoInstrumentationConfig).getD []).map Prod.fst) := by
  have hm : (resolve e o).autoInstrumentationConfig = some m := by
    cases e <;>
      simp [resolve, TelemetryConfigs.defaults, isDevEnv,
        TelemetryConfigs.developmentDefaults, TelemetryConfigs.productionDefaults,
        TelemetryObj.spread, GcpTelemetryConfigOptions.toObj, jsOver, h]
  refine ⟨hm, fun hd => ?_⟩
  rw [hm]
  simpa using hd

/-- Concrete instance of claim C7: a caller mapping with one HTTP entry
replaces the default mapping, and the DNS entry is gone. -/
theorem claim_C7_witness :
    (resolve GenkitEnv.production mapOpts).autoInstrumentationConfig
      = some [("@opentelemetry/instrumentation-http", ⟨some true⟩)]
  ∧ dnsInstrumentationKey ∉
      (((resolve GenkitEnv.production mapOpts).autoInstrumentationConfig).getD []).map Prod.fst :=
  ⟨(claim_C7 GenkitEnv.production mapOpts _ rfl).1,
   (claim_C7 GenkitEnv.production mapOpts _ rfl).2 (by decide)⟩

/-- Claim C8: the logger consumer is gated on the export flag — export
`true` selects the JSON format and the remote `LoggingWinston` transport,
export `false` selects the plain printf format and the local console
transport. -/
theorem claim_C8 (cfg : GcpPluginConfig) (s : Option Nat) :
    (cfg.telemetryConfig.«export» = some true →
        (GcpLogger.getLogger cfg s).format = LogFormat.json ∧
        (GcpLogger.getLogger cfg s).transports.head?
          = some (LogTransport.loggingWinston cfg.projectId cfg.credentials))
  ∧ (cfg.telemetryConfig.«export» = some false →
        (GcpLogger.getLogger cfg s).format = LogFormat.printfPlain ∧
        (GcpLogger.getLogger cfg s).transports.head? = some LogTransport.console) := by
  constructor <;> intro h <;> simp [GcpLogger.getLogger, h]

/-- Concrete instance of claim C8: an exporting production config gets the
JSON format and the remote transport. -/
theorem claim_C8_witness :
    (GcpLogger.getLogger exportingPluginConfig none).format = LogFormat.json
  ∧ (GcpLogger.getLogger exportingPluginConfig none).transports.head?
      = some (LogTransport.loggingWinston (some "demo-project") (some 11)) :=
  (claim_C8 exportingPluginConfig none).1 rfl

/-- Claim C9: in both environments' base defaults the metric export
timeout equals the metric export interval — 5000 ms in development and
300000 ms in production. -/
theorem claim_C9 :
    (∀ e : GenkitEnv,
        (resolve e emptyOptions).metricExportTimeoutMillis
          = (resolve e emptyOptions).metricExportIntervalMillis)
  ∧ (resolve GenkitEnv.development emptyOptions).metricExportTimeoutMillis = some 5000
  ∧ (resolve GenkitEnv.production emptyOptions).metricExportTimeoutMillis = some 300000 := by
  refine ⟨fun e => ?_, rfl, rfl⟩
  cases e <;> rfl

/-- Claim C10: `forceDevExport` never influences the export gate in
production — every well-typed override record resolves to `export = true`
there. -/
theorem claim_C10 (o : GcpTelemetryConfigOptions) :
    (TelemetryConfigs.productionDefaults o).«export» = some true
  ∧ (resolve GenkitEnv.production o).«export» = some true :=
  ⟨rfl, rfl⟩
